import Mathlib

/-!
Verification of the interactive command-line calculator (`src/calculator.py`)
against its natural-language specification.

The program is embedded shallowly:

* Python `float` values are modelled by `PyFloat`: NaN, signed infinities,
  and finite values carried as exact rationals.  IEEE-754 rounding is not
  modelled; every finite value manipulated in this development (small
  integers and short decimal fractions combined by `+`, `-`, `*`) is
  handled identically by exact rational arithmetic and by binary64
  arithmetic, because all of them are exactly representable and no
  operation here overflows.
* `float(s)` (CPython's string-to-float conversion) is modelled by
  `pyFloatOfString` on the ASCII fragment of its grammar: optional
  surrounding whitespace, optional sign, `inf`/`infinity`/`nan`
  (case-insensitive) or a decimal literal with optional exponent.
  (Digit-group underscores and non-ASCII digits are outside the fragment
  used by this program's specification.)
* `str(x)` for a float `x` (as used by the f-strings in the source) is
  modelled by `pyFloatToString` on the positional-notation fragment:
  `nan`, `inf`/`-inf`, and finite values printed as exact terminating
  decimals with at least one fractional digit.  This agrees with CPython's
  shortest-round-trip repr on every value printed by the program in this
  development (integral values of small magnitude, and short decimals,
  round-trip exactly).
* The interactive loop `main` is modelled by `calculatorMain`, a function
  from the list of stdin lines to the list of emitted strings (prompts
  passed to `input()` and lines passed to `print()`, in order) together
  with how the run ended: `RunEnd.quit` for the `break` on choice `"q"`,
  `RunEnd.eof` for the uncaught `EOFError` that `input()` raises when
  stdin is exhausted.
-/

/-- Python float values: NaN, signed infinity, or a finite value.
Finite values are carried as exact rationals (see the header comment);
the sign of zero is not tracked, which no claim here depends on. -/
inductive PyFloat : Type where
  | nan : PyFloat
  | inf (neg : Bool) : PyFloat
  | finite (q : ℚ) : PyFloat
  deriving DecidableEq, Repr

namespace PyFloat

/-- IEEE-754 addition on the model (special-value rules; exact on finite
arguments, see the header comment on rounding). -/
def pyAdd : PyFloat → PyFloat → PyFloat
  | nan, _ => nan
  | _, nan => nan
  | inf s₁, inf s₂ => if s₁ = s₂ then inf s₁ else nan
  | inf s, finite _ => inf s
  | finite _, inf s => inf s
  | finite a, finite b => finite (a + b)

/-- IEEE-754 subtraction on the model. -/
def pySub : PyFloat → PyFloat → PyFloat
  | nan, _ => nan
  | _, nan => nan
  | inf s₁, inf s₂ => if s₁ = s₂ then nan else inf s₁
  | inf s, finite _ => inf s
  | finite _, inf s => inf (!s)
  | finite a, finite b => finite (a - b)

/-- IEEE-754 multiplication on the model. -/
def pyMul : PyFloat → PyFloat → PyFloat
  | nan, _ => nan
  | _, nan => nan
  | inf s₁, inf s₂ => inf (xor s₁ s₂)
  | inf s, finite b => if b = 0 then nan else inf (xor s (decide (b < 0)))
  | finite a, inf s => if a = 0 then nan else inf (xor (decide (a < 0)) s)
  | finite a, finite b => finite (a * b)

instance : Add PyFloat := ⟨pyAdd⟩
instance : Sub PyFloat := ⟨pySub⟩
instance : Mul PyFloat := ⟨pyMul⟩

theorem add_def (x y : PyFloat) : x + y = pyAdd x y := rfl
theorem sub_def (x y : PyFloat) : x - y = pySub x y := rfl
theorem mul_def (x y : PyFloat) : x * y = pyMul x y := rfl

end PyFloat

/-! ### Parsing: the model of CPython `float(s)` -/

/-- The ASCII whitespace characters stripped by `float()`. -/
def pyWhitespace : List Char := [' ', '\t', '\n', '\r', '\x0b', '\x0c']

/-- Strip leading and trailing whitespace from a character list. -/
def stripWs (cs : List Char) : List Char :=
  ((cs.dropWhile (· ∈ pyWhitespace)).reverse.dropWhile (· ∈ pyWhitespace)).reverse

/-- Numeric value of a (known-valid) list of ASCII digits. -/
def digitsToNat (ds : List Char) : Nat :=
  ds.foldl (fun n c => 10 * n + (c.toNat - '0'.toNat)) 0

/-- Split at the first `e`/`E`, returning the mantissa characters and,
when an exponent marker is present, the characters after it. -/
def splitExpMark : List Char → List Char × Option (List Char)
  | [] => ([], none)
  | c :: cs =>
    if c = 'e' ∨ c = 'E' then ([], some cs)
    else
      let (m, r) := splitExpMark cs
      (c :: m, r)

/-- Split at the first `.`, returning the integer-part characters and,
when a point is present, the characters after it. -/
def splitPoint : List Char → List Char × Option (List Char)
  | [] => ([], none)
  | c :: cs =>
    if c = '.' then ([], some cs)
    else
      let (m, r) := splitPoint cs
      (c :: m, r)

/-- Parse an (unsigned) exponent field: optional sign, then ≥ 1 digit. -/
def parseExpField (cs : List Char) : Option Int :=
  match cs with
  | '+' :: ds =>
    if ds ≠ [] ∧ ds.all Char.isDigit then some (digitsToNat ds : Int) else none
  | '-' :: ds =>
    if ds ≠ [] ∧ ds.all Char.isDigit then some (-(digitsToNat ds : Int)) else none
  | ds =>
    if ds ≠ [] ∧ ds.all Char.isDigit then some (digitsToNat ds : Int) else none

/-- Parse an unsigned mantissa `digits [. digits]` or `. digits`
(at least one digit overall) as an exact rational. -/
def parseMantissa (cs : List Char) : Option ℚ :=
  let (ip, fp?) := splitPoint cs
  match fp? with
  | none =>
    if ip ≠ [] ∧ ip.all Char.isDigit then some (digitsToNat ip : ℚ) else none
  | some fp =>
    if (ip ++ fp) ≠ [] ∧ ip.all Char.isDigit ∧ fp.all Char.isDigit then
      some ((digitsToNat (ip ++ fp) : ℚ) / (10 : ℚ) ^ fp.length)
    else none

/-- Parse an unsigned decimal literal with optional exponent. -/
def parseDecimal (cs : List Char) : Option ℚ :=
  let (mant, exp?) := splitExpMark cs
  match exp? with
  | none => parseMantissa mant
  | some ecs =>
    match parseMantissa mant, parseExpField ecs with
    | some m, some e => some (m * (10 : ℚ) ^ e)
    | _, _ => none

/-- Model of CPython `float(s)` on its ASCII fragment (header comment):
`none` models the `ValueError` raised on conversion failure. -/
def pyFloatOfString (s : String) : Option PyFloat :=
  let cs := stripWs s.data
  let (neg, body) :=
    match cs with
    | '+' :: r => (false, r)
    | '-' :: r => (true, r)
    | r => (false, r)
  let low := body.map Char.toLower
  if low = "inf".data ∨ low = "infinity".data then some (PyFloat.inf neg)
  else if low = "nan".data then some PyFloat.nan
  else
    match parseDecimal body with
    | some q => some (PyFloat.finite (if neg then -q else q))
    | none => none

/-! ### Formatting: the model of CPython `str(x)` for floats -/

/-- Multiplicity of `p` in `n` (first argument is recursion fuel). -/
def factorCount (p : Nat) : Nat → Nat → Nat
  | 0, _ => 0
  | fuel + 1, n =>
    if 2 ≤ p ∧ 1 ≤ n ∧ n % p = 0 then factorCount p fuel (n / p) + 1 else 0

/-- Decimal digit string of `n` padded with leading zeros to width `k`. -/
def padZeros (n : Nat) (k : Nat) : String :=
  let s := toString n
  String.mk (List.replicate (k - s.length) '0') ++ s

/-- Positional decimal rendering of a nonnegative rational whose
denominator divides a power of 10 (every finite value printed by the
program is of this form; see the header comment). -/
def decimalStringOfNonnegRat (q : ℚ) : String :=
  let n := q.num.natAbs
  let d := q.den
  let k := max (factorCount 2 d d) (factorCount 5 d d)
  if d ∣ 10 ^ k then
    let digits := n * 10 ^ k / d
    if k = 0 then toString digits ++ ".0"
    else
      let whole := digits / 10 ^ k
      let frac := digits % 10 ^ k
      let fracDigits := ((padZeros frac k).data.reverse.dropWhile (· = '0')).reverse
      toString whole ++ "." ++ String.mk (if fracDigits = [] then ['0'] else fracDigits)
  else toString q.num ++ "/" ++ toString d

/-- Model of CPython `str(x)` for a float `x`, on the positional-notation
fragment (header comment). -/
def pyFloatToString : PyFloat → String
  | PyFloat.nan => "nan"
  | PyFloat.inf neg => if neg then "-inf" else "inf"
  | PyFloat.finite q =>
    if q < 0 then "-" ++ decimalStringOfNonnegRat (-q) else decimalStringOfNonnegRat q

/-! ### The interactive loop (`main` in `src/calculator.py`) -/

/-- How a run of the loop ended: `quit` models the `break` taken on
choice `"q"`; `eof` models the uncaught `EOFError` raised by `input()`
once the supplied stdin lines are exhausted. -/
inductive RunEnd : Type where
  | quit : RunEnd
  | eof : RunEnd
  deriving DecidableEq, Repr

/-- The generic arithmetic helpers of lines 1–8: each is the bare
binary operation of the ambient number type, with no error conditions
and no side effects. -/
def add {α : Type} [Add α] (a b : α) : α := a + b

/-- `subtract(a, b) = a - b` (lines 4–5). -/
def subtract {α : Type} [Sub α] (a b : α) : α := a - b

/-- `multiply(a, b) = a * b` (lines 7–8). -/
def multiply {α : Type} [Mul α] (a b : α) : α := a * b

def menuLines : List String :=
  ["Simple Calculator", "1. Add", "2. Subtract", "3. Multiply"]

def choicePrompt : String := "\nEnter choice (1/2/3) or 'q' to quit: "

def numPrompt1 : String := "Enter first number: "

def numPrompt2 : String := "Enter second number: "

def invalidInputMsg : String := "Invalid input! Please enter valid numbers."

def invalidChoiceMsg : String := "Invalid choice! Please enter 1, 2, or 3."

/-- The dispatch on `choice` of lines 27–35: the result line printed for
a successful operation, `none` when `choice` is none of `"1"`, `"2"`,
`"3"` (unreachable under the guard of line 22, where nothing is printed). -/
def opLine (choice : String) (num1 num2 : PyFloat) : Option String :=
  if choice = "1" then
    some (pyFloatToString num1 ++ " + " ++ pyFloatToString num2 ++ " = " ++
      pyFloatToString (add num1 num2))
  else if choice = "2" then
    some (pyFloatToString num1 ++ " - " ++ pyFloatToString num2 ++ " = " ++
      pyFloatToString (subtract num1 num2))
  else if choice = "3" then
    some (pyFloatToString num1 ++ " * " ++ pyFloatToString num2 ++ " = " ++
      pyFloatToString (multiply num1 num2))
  else none

/-- Result of one loop iteration after the choice line has been read
(and found different from `"q"`): the strings emitted during the rest of
the iteration, how many further stdin lines were consumed beyond the
choice line, and whether the iteration aborted on `EOFError`. -/
structure IterResult : Type where
  outs : List String
  consumed : Nat
  eof : Bool
  deriving DecidableEq, Repr

/-- One iteration of the loop body (lines 22–40) for a non-`"q"` choice,
given the stdin lines that follow the choice line.  Python evaluates
`float(input(...))` for `num1` first, so when the first operand fails to
parse the `ValueError` is raised before the second `input()` runs and
only one operand line is consumed. -/
def iterate (choice : String) (rest : List String) : IterResult :=
  if choice ∈ ["1", "2", "3"] then
    match rest with
    | [] => ⟨[numPrompt1], 0, true⟩
    | s₁ :: rest₁ =>
      match pyFloatOfString s₁ with
      | none => ⟨[numPrompt1, invalidInputMsg], 1, false⟩
      | some num1 =>
        match rest₁ with
        | [] => ⟨[numPrompt1, numPrompt2], 1, true⟩
        | s₂ :: _ =>
          match pyFloatOfString s₂ with
          | none => ⟨[numPrompt1, numPrompt2, invalidInputMsg], 2, false⟩
          | some num2 =>
            ⟨[numPrompt1, numPrompt2] ++ (opLine choice num1 num2).toList, 2, false⟩
  else ⟨[invalidChoiceMsg], 0, false⟩

/-- The `while True` loop of lines 16–40, as a function from the stdin
lines to the emitted strings and the way the run ended. -/
def loopRun : List String → List String × RunEnd
  | [] => ([choicePrompt], RunEnd.eof)
  | choice :: rest =>
    if choice = "q" then ([choicePrompt], RunEnd.quit)
    else if choice ∈ ["1", "2", "3"] then
      match rest with
      | [] => ([choicePrompt, numPrompt1], RunEnd.eof)
      | s₁ :: rest₁ =>
        match pyFloatOfString s₁ with
        | none =>
          let r := loopRun rest₁
          (choicePrompt :: numPrompt1 :: invalidInputMsg :: r.1, r.2)
        | some num1 =>
          match rest₁ with
          | [] => ([choicePrompt, numPrompt1, numPrompt2], RunEnd.eof)
          | s₂ :: rest₂ =>
            match pyFloatOfString s₂ with
            | none =>
              let r := loopRun rest₂
              (choicePrompt :: numPrompt1 :: numPrompt2 :: invalidInputMsg :: r.1, r.2)
            | some num2 =>
              let r := loopRun rest₂
              (choicePrompt :: numPrompt1 :: numPrompt2 ::
                ((opLine choice num1 num2).toList ++ r.1), r.2)
    else
      let r := loopRun rest
      (choicePrompt :: invalidChoiceMsg :: r.1, r.2)

/-- The whole program `main` (lines 10–40): the startup menu followed by
the loop. -/
def calculatorMain (input : List String) : List String × RunEnd :=
  let r := loopRun input
  (menuLines ++ r.1, r.2)

/-- Whether a character list embeds the `" = "` separator. -/
def hasEqSeparator : List Char → Bool
  | ' ' :: '=' :: ' ' :: _ => true
  | _ :: cs => hasEqSeparator cs
  | [] => false

/-- A string is an arithmetic result line exactly when it embeds the
`" = "` separator that only the f-strings of lines 29, 32 and 35 emit. -/
def isResultLine (s : String) : Bool := hasEqSeparator s.data

/-! ### Shared lemmas -/

/-- A run of the loop can end with `quit` only if some input line is `"q"`. -/
theorem loopRun_quit_mem (input : List String) :
    (loopRun input).2 = RunEnd.quit → "q" ∈ input := by
  induction input using loopRun.induct <;> intro h <;>
    rw [loopRun.eq_def] at h <;> simp_all

/-! ### The claims -/

/-- C1: for the input line sequence `["1", "x", "4", "q"]` the program's
output contains the invalid-input message, contains no arithmetic result
line, and the run terminates via the quit branch.  (The full output also
shows the follow-up: `"4"` is then read as an invalid choice.) -/
theorem c1_invalid_operand_sequence :
    calculatorMain ["1", "x", "4", "q"] =
      (menuLines ++ [choicePrompt, numPrompt1, invalidInputMsg, choicePrompt,
        invalidChoiceMsg, choicePrompt], RunEnd.quit) ∧
    invalidInputMsg ∈ (calculatorMain ["1", "x", "4", "q"]).1 ∧
    (∀ s ∈ (calculatorMain ["1", "x", "4", "q"]).1, isResultLine s = false) ∧
    (calculatorMain ["1", "x", "4", "q"]).2 = RunEnd.quit := by
  decide

/-- C2 (counterexample): in an iteration whose choice is `"1"` and whose
first operand line is `"x"`, the program consumes 2 lines (choice and
first operand), not 3: `float(input(...))` for `num1` raises before the
second `input()` runs. -/
theorem c2_two_lines_on_first_operand_failure :
    "1" ∈ ["1", "2", "3"] ∧ 1 + (iterate "1" ["x", "4", "q"]).consumed ≠ 3 := by
  decide

/-- C2 (amended): an iteration with choice `"1"`, `"2"` or `"3"` consumes
three lines when the first operand parses (even if the second does not),
but only two when the first operand fails to parse; an iteration with any
other non-`"q"` choice consumes exactly one line. -/
theorem c2_lines_consumed_per_iteration (choice s₁ s₂ : String) (rest : List String) :
    1 + (iterate choice (s₁ :: s₂ :: rest)).consumed =
      if choice ∈ ["1", "2", "3"] then
        if pyFloatOfString s₁ = none then 2 else 3
      else 1 := by
  by_cases hc : choice ∈ ["1", "2", "3"] <;>
    cases hp₁ : pyFloatOfString s₁ <;>
      cases hp₂ : pyFloatOfString s₂ <;>
        simp [iterate, hc, hp₁, hp₂]

/-- C3: `add`, `subtract`, `multiply` are exactly the native `+`, `-`, `*`
of the ambient number type (pure total functions, no error conditions);
on finite float values the model computes the exact sum, difference and
product. -/
theorem c3_arithmetic_functions {α : Type} [Add α] [Sub α] [Mul α] (a b : α) :
    add a b = a + b ∧ subtract a b = a - b ∧ multiply a b = a * b ∧
    (∀ x y : ℚ,
      add (PyFloat.finite x) (PyFloat.finite y) = PyFloat.finite (x + y) ∧
      subtract (PyFloat.finite x) (PyFloat.finite y) = PyFloat.finite (x - y) ∧
      multiply (PyFloat.finite x) (PyFloat.finite y) = PyFloat.finite (x * y)) :=
  ⟨rfl, rfl, rfl, fun _ _ => ⟨rfl, rfl, rfl⟩⟩

/-- C4: when the choice is an operation and an operand line fails to
parse (either the first, or the second after a successful first), the
iteration prints the invalid-input message, prints no result line, does
not abort, and the loop goes on with the remaining input. -/
theorem c4_operand_parse_failure_recovery (choice s₁ s₂ : String) (rest : List String)
    (hc : choice = "1" ∨ choice = "2" ∨ choice = "3")
    (hfail : pyFloatOfString s₁ = none ∨
      (pyFloatOfString s₁ ≠ none ∧ pyFloatOfString s₂ = none)) :
    invalidInputMsg ∈ (iterate choice (s₁ :: s₂ :: rest)).outs ∧
    (∀ s ∈ (iterate choice (s₁ :: s₂ :: rest)).outs, isResultLine s = false) ∧
    (iterate choice (s₁ :: s₂ :: rest)).eof = false ∧
    loopRun (choice :: s₁ :: s₂ :: rest) =
      (choicePrompt :: ((iterate choice (s₁ :: s₂ :: rest)).outs ++
        (loopRun ((s₁ :: s₂ :: rest).drop (iterate choice (s₁ :: s₂ :: rest)).consumed)).1),
       (loopRun ((s₁ :: s₂ :: rest).drop (iterate choice (s₁ :: s₂ :: rest)).consumed)).2) := by
  rcases hfail with hp₁ | ⟨hp₁, hp₂⟩
  · obtain h | h | h := hc <;> subst h <;>
      refine ⟨?_, ?_, ?_, ?_⟩ <;>
        simp [iterate, loopRun, hp₁] <;> decide
  · rcases hmp₁ : pyFloatOfString s₁ with _ | n₁
    · exact absurd hmp₁ hp₁
    · obtain h | h | h := hc <;> subst h <;>
        refine ⟨?_, ?_, ?_, ?_⟩ <;>
          simp [iterate, loopRun, hmp₁, hp₂] <;> decide

/-- Witness for C4 at choice `"1"`, operand lines `"x"` and `"4"`. -/
theorem c4_operand_parse_failure_recovery_witness :
    invalidInputMsg ∈ (iterate "1" ("x" :: "4" :: [])).outs ∧
    (∀ s ∈ (iterate "1" ("x" :: "4" :: [])).outs, isResultLine s = false) ∧
    (iterate "1" ("x" :: "4" :: [])).eof = false ∧
    loopRun ("1" :: "x" :: "4" :: []) =
      (choicePrompt :: ((iterate "1" ("x" :: "4" :: [])).outs ++
        (loopRun (("x" :: "4" :: []).drop (iterate "1" ("x" :: "4" :: [])).consumed)).1),
       (loopRun (("x" :: "4" :: []).drop (iterate "1" ("x" :: "4" :: [])).consumed)).2) :=
  c4_operand_parse_failure_recovery "1" "x" "4" [] (Or.inl rfl) (Or.inl (by decide))

/-- C5: entering `"q"` at the choice prompt ends the loop with no output
beyond that prompt, and a run can reach the quit exit only if some input
line is `"q"` (an input stream without `"q"` never terminates the loop:
the model ends in `eof` only because the supplied line list is finite). -/
theorem c5_termination_only_on_quit (input rest : List String) :
    loopRun ("q" :: rest) = ([choicePrompt], RunEnd.quit) ∧
    ((loopRun input).2 = RunEnd.quit → "q" ∈ input) :=
  ⟨by rw [loopRun.eq_def]; simp, loopRun_quit_mem input⟩

/-- Witness for C5 at input `["q"]`. -/
theorem c5_termination_only_on_quit_witness :
    loopRun ("q" :: ([] : List String)) = ([choicePrompt], RunEnd.quit) ∧ "q" ∈ ["q"] :=
  ⟨(c5_termination_only_on_quit ["q"] []).1,
   (c5_termination_only_on_quit ["q"] []).2 (by decide)⟩

/-- C6: a choice other than `"q"`, `"1"`, `"2"`, `"3"` makes the
iteration print the invalid-choice message only, consume no operand
line, emit no operand prompt, and the loop goes on with the rest of the
input. -/
theorem c6_invalid_choice_consumes_nothing (choice : String) (rest : List String)
    (hq : choice ≠ "q") (hc : choice ∉ ["1", "2", "3"]) :
    iterate choice rest = ⟨[invalidChoiceMsg], 0, false⟩ ∧
    numPrompt1 ∉ (iterate choice rest).outs ∧
    numPrompt2 ∉ (iterate choice rest).outs ∧
    loopRun (choice :: rest) =
      (choicePrompt :: invalidChoiceMsg :: (loopRun rest).1, (loopRun rest).2) := by
  have h1 : iterate choice rest = ⟨[invalidChoiceMsg], 0, false⟩ := by
    simp [iterate, hc]
  refine ⟨h1, ?_, ?_, ?_⟩
  · rw [h1]; decide
  · rw [h1]; decide
  · rw [loopRun.eq_def]; simp [hq, hc]

/-- Witness for C6 at choice `"5"`. -/
theorem c6_invalid_choice_consumes_nothing_witness :
    iterate "5" [] = ⟨[invalidChoiceMsg], 0, false⟩ ∧
    numPrompt1 ∉ (iterate "5" []).outs ∧
    numPrompt2 ∉ (iterate "5" []).outs ∧
    loopRun ("5" :: []) =
      (choicePrompt :: invalidChoiceMsg :: (loopRun []).1, (loopRun []).2) :=
  c6_invalid_choice_consumes_nothing "5" [] (by decide) (by decide)

/-- C7: the input sequence `["1", "3", "4", "q"]` produces the output
line `"3.0 + 4.0 = 7.0"` and the run then terminates via the quit
branch; in general a successful operation's result line is
`"<num1> <symbol> <num2> = <result>"` with symbol `+`, `-`, `*` for
choices `"1"`, `"2"`, `"3"`. -/
theorem c7_success_trace_and_format :
    calculatorMain ["1", "3", "4", "q"] =
      (menuLines ++ [choicePrompt, numPrompt1, numPrompt2, "3.0 + 4.0 = 7.0", choicePrompt],
        RunEnd.quit) ∧
    "3.0 + 4.0 = 7.0" ∈ (calculatorMain ["1", "3", "4", "q"]).1 ∧
    (∀ n1 n2 : PyFloat,
      opLine "1" n1 n2 = some (pyFloatToString n1 ++ " + " ++ pyFloatToString n2 ++ " = " ++
        pyFloatToString (add n1 n2)) ∧
      opLine "2" n1 n2 = some (pyFloatToString n1 ++ " - " ++ pyFloatToString n2 ++ " = " ++
        pyFloatToString (subtract n1 n2)) ∧
      opLine "3" n1 n2 = some (pyFloatToString n1 ++ " * " ++ pyFloatToString n2 ++ " = " ++
        pyFloatToString (multiply n1 n2))) := by
  have htrace : calculatorMain ["1", "3", "4", "q"] =
      (menuLines ++ [choicePrompt, numPrompt1, numPrompt2, "3.0 + 4.0 = 7.0", choicePrompt],
        RunEnd.quit) := by
    norm_num +decide [calculatorMain, loopRun,
      show pyFloatOfString "3" = some (PyFloat.finite 3) from by decide,
      show pyFloatOfString "4" = some (PyFloat.finite 4) from by decide,
      show digitsToNat ['3'] = 3 from by decide,
      show digitsToNat ['4'] = 4 from by decide,
      opLine, add, PyFloat.add_def, PyFloat.pyAdd,
      show (3 + 4 : ℚ) = 7 from by norm_num,
      show pyFloatToString (PyFloat.finite 3) = "3.0" from by decide,
      show pyFloatToString (PyFloat.finite 4) = "4.0" from by decide,
      show pyFloatToString (PyFloat.finite 7) = "7.0" from by decide]
  refine ⟨htrace, ?_, fun n1 n2 => ⟨rfl, rfl, rfl⟩⟩
  rw [htrace]; decide

/-- C8: `add` and `multiply` are commutative on finite float values;
`subtract` is not commutative (witness `(1, 0)`). -/
theorem c8_commutativity :
    (∀ a b : ℚ, add (PyFloat.finite a) (PyFloat.finite b) =
      add (PyFloat.finite b) (PyFloat.finite a)) ∧
    (∀ a b : ℚ, multiply (PyFloat.finite a) (PyFloat.finite b) =
      multiply (PyFloat.finite b) (PyFloat.finite a)) ∧
    (∃ x y : PyFloat, subtract x y ≠ subtract y x) := by
  refine ⟨?_, ?_, PyFloat.finite 1, PyFloat.finite 0, ?_⟩
  · intro a b
    simp [add, PyFloat.add_def, PyFloat.pyAdd, add_comm]
  · intro a b
    simp [multiply, PyFloat.mul_def, PyFloat.pyMul, mul_comm]
  · simp [subtract, PyFloat.sub_def, PyFloat.pySub]
    norm_num

/-- C9: `"q"` entered as an operand does not quit: it fails numeric
parsing, the iteration prints the invalid-input message, and the loop
goes on; quit is recognized at the choice prompt only. -/
theorem c9_quit_as_operand_does_not_terminate (choice : String) (rest : List String)
    (hc : choice = "1" ∨ choice = "2" ∨ choice = "3") :
    pyFloatOfString "q" = none ∧
    iterate choice ("q" :: rest) = ⟨[numPrompt1, invalidInputMsg], 1, false⟩ ∧
    loopRun (choice :: "q" :: rest) =
      (choicePrompt :: numPrompt1 :: invalidInputMsg :: (loopRun rest).1,
       (loopRun rest).2) := by
  obtain h | h | h := hc <;> subst h <;>
    exact ⟨by decide,
      by simp [iterate, show pyFloatOfString "q" = none from by decide],
      by simp [loopRun, show pyFloatOfString "q" = none from by decide]⟩

/-- Witness for C9 at choice `"1"` with a further `"q"` choice line:
the run then terminates from the choice prompt. -/
theorem c9_quit_as_operand_does_not_terminate_witness :
    pyFloatOfString "q" = none ∧
    iterate "1" ("q" :: ["q"]) = ⟨[numPrompt1, invalidInputMsg], 1, false⟩ ∧
    loopRun ("1" :: "q" :: ["q"]) =
      (choicePrompt :: numPrompt1 :: invalidInputMsg :: (loopRun ["q"]).1,
       (loopRun ["q"]).2) :=
  c9_quit_as_operand_does_not_terminate "1" ["q"] (Or.inl rfl)

/-- C10: `"inf"`, `"nan"` and whitespace-surrounded numbers parse
successfully, and on input `["1", "inf", "1", "q"]` the program prints
the result line `"inf + 1.0 = inf"` and never the invalid-input
message. -/
theorem c10_special_operand_strings :
    pyFloatOfString "inf" = some (PyFloat.inf false) ∧
    pyFloatOfString "nan" = some PyFloat.nan ∧
    pyFloatOfString " 1 " = some (PyFloat.finite 1) ∧
    calculatorMain ["1", "inf", "1", "q"] =
      (menuLines ++ [choicePrompt, numPrompt1, numPrompt2, "inf + 1.0 = inf", choicePrompt],
        RunEnd.quit) ∧
    "inf + 1.0 = inf" ∈ (calculatorMain ["1", "inf", "1", "q"]).1 ∧
    invalidInputMsg ∉ (calculatorMain ["1", "inf", "1", "q"]).1 := by
  decide
